import Mathlib

/-!
Shallow embedding of the qdwb formula library.

The library is a flat set of pure functions over floating-point scalars:
unit conversions (`qdwb/convert.py`), range validators (`qdwb/check.py`,
`qdwb/evapotranspiration/check.py`) and reference-evapotranspiration
estimators (`qdwb/reference_evapotranspiration.py`,
`qdwb/evapotranspiration/pet.py`).

Embedding conventions:
* Python floats are embedded as exact numbers: rationals (ℚ) wherever the
  code only uses field arithmetic and comparisons, reals (ℝ) where `sqrt`,
  `sin`, `tan` or `acos` appear, and ℂ for the one expression
  (`(tmax - tmin) ** 0.5` in `pet.py`) that Python evaluates to a complex
  number when the base is negative.
* A Python function that can raise is embedded as `Except PyError α`:
  `Except.error PyError.rangeError` stands for the `ValueError` that the
  validators raise (the spec calls this single error kind `RangeError`),
  and `Except.error PyError.zeroDivisionError` stands for Python's
  `ZeroDivisionError`, which Python raises even for float division when
  the divisor is exactly zero.
* `day_of_year` is an integer in the code (`doy : int`), so it is embedded
  as ℤ.
-/

/-- The exception kinds observable in the library: `rangeError` is the
`ValueError` raised by the validators (called `RangeError` by the spec);
`zeroDivisionError` is Python's `ZeroDivisionError`, raised by `a / b`
when `b` is zero (for floats too). -/
inductive PyError where
  | rangeError
  | zeroDivisionError
  deriving DecidableEq

/-- `qdwb/check.py`, `check_greater_than`: raises iff `a > b` (strict). -/
def check_greater_than (a b : ℚ) : Except PyError Unit :=
  if a > b then Except.error PyError.rangeError else Except.ok ()

/-- `qdwb/check.py`, `check_between`: raises iff `a < min or a > max`. -/
def check_between (a min max : ℚ) : Except PyError Unit :=
  if a < min ∨ a > max then Except.error PyError.rangeError else Except.ok ()

/-- `qdwb/convert.py`, `convert_celsius2kelvin`: `celsius + 273.15`. -/
def convert_celsius2kelvin (celsius : ℚ) : ℚ :=
  celsius + 273.15

/-- `qdwb/convert.py`, `convert_kelvin2celsius`: `kelvin - 273.15`. -/
def convert_kelvin2celsius (kelvin : ℚ) : ℚ :=
  kelvin - 273.15

/-- `qdwb/convert.py`, `convert_radiation2evaporation`: `radiation * 0.408`. -/
def convert_radiation2evaporation (radiation : ℚ) : ℚ :=
  radiation * 0.408

/-- Modelled from the spec: `degrees2radians`, from the module
`qdwb/evapotranspiration/convert.py`, which is imported by
`qdwb/evapotranspiration/check.py` and `pet.py` but is missing from the
sources; the spec gives `convert_degrees_to_radians(d) → d × (π/180)`,
matching `convert_degrees2radians` in `qdwb/convert.py`. -/
noncomputable def degrees2radians (d : ℝ) : ℝ :=
  d * (Real.pi / 180.0)

/-- Modelled from the spec: `radiation2evaporation`, from the same missing
module `qdwb/evapotranspiration/convert.py`; the spec gives
`convert_radiation_to_evaporation(r) → r × 0.408`, matching
`convert_radiation2evaporation` in `qdwb/convert.py`. -/
def radiation2evaporation (radiation : ℚ) : ℚ :=
  radiation * 0.408

/-- `qdwb/evapotranspiration/check.py`: `_MINLAT_RADIANS = degrees2radians(-90.0)`. -/
noncomputable def _MINLAT_RADIANS : ℝ := degrees2radians (-90.0)

/-- `qdwb/evapotranspiration/check.py`: `_MAXLAT_RADIANS = degrees2radians(90.0)`. -/
noncomputable def _MAXLAT_RADIANS : ℝ := degrees2radians 90.0

/-- `qdwb/evapotranspiration/check.py`: `_MINSOLDEC_RADIANS = degrees2radians(-23.5)`. -/
noncomputable def _MINSOLDEC_RADIANS : ℝ := degrees2radians (-23.5)

/-- `qdwb/evapotranspiration/check.py`: `_MAXSOLDEC_RADIANS = degrees2radians(23.5)`. -/
noncomputable def _MAXSOLDEC_RADIANS : ℝ := degrees2radians 23.5

/-- `qdwb/evapotranspiration/check.py`, `check_julian_day`: raises iff
`not 1 <= doy <= 366`. -/
def check_julian_day (doy : ℤ) : Except PyError Unit :=
  if ¬(1 ≤ doy ∧ doy ≤ 366) then Except.error PyError.rangeError else Except.ok ()

/-- `qdwb/evapotranspiration/check.py`, `check_latitude_radians`: raises iff
`not _MINLAT_RADIANS <= latitude <= _MAXLAT_RADIANS`. -/
noncomputable def check_latitude_radians (latitude : ℝ) : Except PyError Unit :=
  if ¬(_MINLAT_RADIANS ≤ latitude ∧ latitude ≤ _MAXLAT_RADIANS) then
    Except.error PyError.rangeError
  else Except.ok ()

/-- `qdwb/evapotranspiration/check.py`, `check_solar_declination_radians`:
raises iff `not _MINSOLDEC_RADIANS <= sd <= _MAXSOLDEC_RADIANS`. -/
noncomputable def check_solar_declination_radians (sd : ℝ) : Except PyError Unit :=
  if ¬(_MINSOLDEC_RADIANS ≤ sd ∧ sd ≤ _MAXSOLDEC_RADIANS) then
    Except.error PyError.rangeError
  else Except.ok ()

/-- `qdwb/evapotranspiration/pet.py`: `SOLAR_CONSTANT = 0.0820`. -/
def SOLAR_CONSTANT : ℚ := 0.0820

/-- `qdwb/evapotranspiration/pet.py`, `solar_declination`: checks the Julian
day, then returns `0.409 * sin((2*pi/365) * day_of_year - 1.39)`. -/
noncomputable def solar_declination (day_of_year : ℤ) : Except PyError ℝ := do
  check_julian_day day_of_year
  pure (0.409 * Real.sin (2.0 * Real.pi / 365.0 * (day_of_year : ℝ) - 1.39))

/-- `qdwb/evapotranspiration/pet.py`, `sunset_hour_angle`: checks the latitude
and the solar declination, then returns
`acos(min(max(-tan(latitude) * tan(solar_dec), -1.0), 1.0))`. -/
noncomputable def sunset_hour_angle (latitude solar_dec : ℝ) : Except PyError ℝ := do
  check_latitude_radians latitude
  check_solar_declination_radians solar_dec
  pure (Real.arccos (min (max (-Real.tan latitude * Real.tan solar_dec) (-1.0)) 1.0))

/-- Embedding of the Python expression `x ** 0.5` for a float `x`: a
nonnegative base yields the real square root, while a negative base makes
Python 3 return (without raising) the principal complex square root
`i * sqrt(-x)`. -/
noncomputable def pow_half (x : ℝ) : ℂ :=
  if 0 ≤ x then ((Real.sqrt x : ℝ) : ℂ) else Complex.I * ((Real.sqrt (-x) : ℝ) : ℂ)

namespace pet

/-- `qdwb/evapotranspiration/pet.py`, module-level `hargreaves_samani`: no
validation at all; returns
`0.0023 * (tmean + 17.8) * (tmax - tmin) ** 0.5 * radiation2evaporation(ra)`.
Total (it can raise nothing); the value is complex when `tmax < tmin`. -/
noncomputable def hargreaves_samani (tmin tmax tmean ra : ℚ) : ℂ :=
  0.0023 * (((tmean : ℝ) : ℂ) + 17.8) * pow_half ((tmax : ℝ) - (tmin : ℝ)) *
    (((radiation2evaporation ra : ℚ) : ℝ) : ℂ)

end pet

namespace ReferenceEvapotranspiration

/-- `qdwb/reference_evapotranspiration.py`, `hargreaves_samani` (class
method): runs `check_greater_than(tmin, tmax)`, `check_greater_than(tmean,
tmax)`, `check_greater_than(tmin, tmean)`,
`check_between(ra, 0, 0.0820 * 24 * 60 * 0.408)`, then returns
`0.0023 * (tmean + 17.8) * (tmax - tmin) ** 0.5 * ra` (note: `ra` enters the
product directly, without the 0.408 conversion). When the checks pass,
`tmin ≤ tmax`, so the square root has a nonnegative argument. -/
noncomputable def hargreaves_samani (tmin tmax tmean ra : ℚ) : Except PyError ℝ := do
  check_greater_than tmin tmax
  check_greater_than tmean tmax
  check_greater_than tmin tmean
  check_between ra 0 (0.0820 * 24 * 60 * 0.408)
  pure (0.0023 * ((tmean : ℝ) + 17.8) * Real.sqrt ((tmax : ℝ) - (tmin : ℝ)) * (ra : ℝ))

/-- `qdwb/reference_evapotranspiration.py`, `fao56_penman_monteith`: no
validation; computes `A = 0.408*delta*(rn - G)`,
`B = gamma * (900/(tmean + 273)) * u2 * (es - ea)`,
`C = delta + gamma*(1 + 0.34*u2)` and returns `(A + B) / C`. Python raises
`ZeroDivisionError` when `tmean + 273 == 0` (computing `B`) and otherwise
when `C == 0` (computing the final quotient). -/
def fao56_penman_monteith (delta rn G gamma tmean u2 es ea : ℚ) : Except PyError ℚ :=
  if tmean + 273 = 0 then Except.error PyError.zeroDivisionError
  else
    let A := 0.408 * delta * (rn - G)
    let B := gamma * (900 / (tmean + 273)) * u2 * (es - ea)
    let C := delta + gamma * (1 + 0.34 * u2)
    if C = 0 then Except.error PyError.zeroDivisionError
    else Except.ok ((A + B) / C)

end ReferenceEvapotranspiration

/-- Sequencing a validator (an `if` that either raises or returns `()`)
inside `Except`. -/
theorem check_bind {α : Type} (c : Prop) [Decidable c] (f : Unit → Except PyError α) :
    ((if c then Except.error PyError.rangeError else Except.ok ()) >>= f)
      = if c then Except.error PyError.rangeError else f () := by
  split_ifs <;> rfl

/-- C7: `check_julian_day` fails with `RangeError` exactly when `doy` is
outside `1..366`; in particular it fails for `doy = 0` and `doy = 367` and
succeeds for `doy = 1` and `doy = 366`. -/
theorem check_julian_day_fails_iff_outside :
    (∀ doy : ℤ, check_julian_day doy = Except.error PyError.rangeError ↔
      (doy < 1 ∨ 366 < doy)) ∧
    check_julian_day 0 = Except.error PyError.rangeError ∧
    check_julian_day 367 = Except.error PyError.rangeError ∧
    check_julian_day 1 = Except.ok () ∧
    check_julian_day 366 = Except.ok () := by
  refine ⟨fun doy => ?_, rfl, rfl, rfl, rfl⟩
  unfold check_julian_day
  split_ifs with h
  · exact iff_of_false (by simp) (by omega)
  · exact iff_of_true rfl (by omega)

/-- C8: converting Kelvin to Celsius (`k - 273.15`) and back (`+ 273.15`) is
the identity, exactly, for every `k`. -/
theorem convert_kelvin_roundtrip (k : ℚ) :
    convert_celsius2kelvin (convert_kelvin2celsius k) = k := by
  unfold convert_celsius2kelvin convert_kelvin2celsius
  ring

/-- C2 counterexample: with `delta = 0` and `gamma = 0` the Penman-Monteith
denominator `delta + gamma*(1 + 0.34*u2)` is zero and
`fao56_penman_monteith` fails with `ZeroDivisionError`, which is not a
`RangeError` — so not every failure in the library is a `RangeError`. -/
theorem fao56_nonrange_failure :
    ReferenceEvapotranspiration.fao56_penman_monteith 0 15 1 0 20 2 2.4 1.2 =
      Except.error PyError.zeroDivisionError ∧
    PyError.zeroDivisionError ≠ PyError.rangeError := by
  constructor
  · unfold ReferenceEvapotranspiration.fao56_penman_monteith
    norm_num
  · intro hcontra
    exact PyError.noConfusion hcontra

/-- C2 (amended): the validators only ever raise `RangeError` (so every
failure of `hargreaves_samani` is a `RangeError`), but
`fao56_penman_monteith` has a second failure mode: it returns a value iff
`tmean + 273 ≠ 0` and `delta + gamma*(1 + 0.34*u2) ≠ 0`, and every failure
it has is a `ZeroDivisionError` (never a `RangeError`). -/
theorem library_failure_modes :
    (∀ delta rn G gamma tmean u2 es ea : ℚ,
      ((∃ v, ReferenceEvapotranspiration.fao56_penman_monteith
          delta rn G gamma tmean u2 es ea = Except.ok v) ↔
        (tmean + 273 ≠ 0 ∧ delta + gamma * (1 + 0.34 * u2) ≠ 0)) ∧
      (∀ e, ReferenceEvapotranspiration.fao56_penman_monteith
          delta rn G gamma tmean u2 es ea = Except.error e →
        e = PyError.zeroDivisionError)) ∧
    (∀ tmin tmax tmean ra : ℚ, ∀ e,
      ReferenceEvapotranspiration.hargreaves_samani tmin tmax tmean ra =
          Except.error e →
      e = PyError.rangeError) := by
  constructor
  · intro delta rn G gamma tmean u2 es ea
    unfold ReferenceEvapotranspiration.fao56_penman_monteith
    dsimp only
    split_ifs with h1 h2 <;> simp_all
  · intro tmin tmax tmean ra e
    unfold ReferenceEvapotranspiration.hargreaves_samani check_greater_than check_between
    simp only [check_bind]
    split_ifs <;> intro h <;>
      first
        | exact (Except.error.inj h).symm
        | exact Except.noConfusion h

/-- C4 counterexample: at `tmean = -273` the term `900/(tmean + 273)`
divides by zero, so `fao56_penman_monteith` raises `ZeroDivisionError`
instead of returning the formula — it is not total. -/
theorem fao56_division_failure :
    ReferenceEvapotranspiration.fao56_penman_monteith 0.5 15 1 0.06 (-273) 2 2.4 1.2 =
      Except.error PyError.zeroDivisionError := by
  unfold ReferenceEvapotranspiration.fao56_penman_monteith
  norm_num

/-- C4 (amended): `fao56_penman_monteith` performs no input validation;
whenever `tmean + 273 ≠ 0` and `delta + gamma*(1 + 0.34*u2) ≠ 0` it returns
`(0.408*delta*(rn - G) + gamma*(900/(tmean + 273))*u2*(es - ea)) /
(delta + gamma*(1 + 0.34*u2))`; when either quantity is zero it raises
`ZeroDivisionError` instead. -/
theorem fao56_penman_monteith_value (delta rn G gamma tmean u2 es ea : ℚ)
    (h1 : tmean + 273 ≠ 0) (h2 : delta + gamma * (1 + 0.34 * u2) ≠ 0) :
    ReferenceEvapotranspiration.fao56_penman_monteith delta rn G gamma tmean u2 es ea =
      Except.ok ((0.408 * delta * (rn - G) + gamma * (900 / (tmean + 273)) * u2 * (es - ea)) /
        (delta + gamma * (1 + 0.34 * u2))) := by
  unfold ReferenceEvapotranspiration.fao56_penman_monteith
  rw [if_neg h1, if_neg h2]

/-- C4 witness: the spec's reference input `(0.5, 15, 1, 0.06, 20, 2, 2.4, 1.2)`
satisfies both nonzero-denominator hypotheses and evaluates to the formula. -/
theorem fao56_penman_monteith_value_witness :
    ((20 : ℚ) + 273 ≠ 0 ∧ (0.5 : ℚ) + 0.06 * (1 + 0.34 * 2) ≠ 0) ∧
    ReferenceEvapotranspiration.fao56_penman_monteith 0.5 15 1 0.06 20 2 2.4 1.2 =
      Except.ok ((0.408 * 0.5 * (15 - 1) + 0.06 * (900 / (20 + 273)) * 2 * (2.4 - 1.2)) /
        (0.5 + 0.06 * (1 + 0.34 * 2))) :=
  ⟨⟨by norm_num, by norm_num⟩,
    fao56_penman_monteith_value 0.5 15 1 0.06 20 2 2.4 1.2 (by norm_num) (by norm_num)⟩

/-- C3 counterexample: at `tmin = tmax = tmean = 20` (all comparisons at
equality) and `ra = 10`, the class-method `hargreaves_samani` succeeds and
returns `0` — `check_greater_than` only raises on strict `>`, so the claim
that it fails at equality is false. -/
theorem hargreaves_samani_succeeds_at_equality :
    ReferenceEvapotranspiration.hargreaves_samani 20 20 20 10 = Except.ok 0 := by
  unfold ReferenceEvapotranspiration.hargreaves_samani check_greater_than check_between
  simp only [check_bind]
  rw [if_neg (by norm_num), if_neg (by norm_num), if_neg (by norm_num),
    if_neg (by norm_num)]
  show Except.ok _ = Except.ok _
  norm_num

/-- C3 (amended): the class-method `hargreaves_samani` fails with
`RangeError` exactly when `tmin > tmax`, or `tmean > tmax`, or
`tmin > tmean` (all strict), or `ra` lies outside `[0, 0.0820*24*60*0.408]`;
for every other input — equalities included — it succeeds. -/
theorem hargreaves_samani_error_iff (tmin tmax tmean ra : ℚ) :
    (ReferenceEvapotranspiration.hargreaves_samani tmin tmax tmean ra =
        Except.error PyError.rangeError ↔
      (tmin > tmax ∨ tmean > tmax ∨ tmin > tmean ∨ ra < 0 ∨
        ra > 0.0820 * 24 * 60 * 0.408)) ∧
    ((∃ v, ReferenceEvapotranspiration.hargreaves_samani tmin tmax tmean ra =
        Except.ok v) ↔
      ¬(tmin > tmax ∨ tmean > tmax ∨ tmin > tmean ∨ ra < 0 ∨
        ra > 0.0820 * 24 * 60 * 0.408)) := by
  unfold ReferenceEvapotranspiration.hargreaves_samani check_greater_than check_between
  simp only [check_bind]
  split_ifs with h1 h2 h3 h4
  · exact ⟨iff_of_true rfl (Or.inl h1),
      iff_of_false (by simp) (fun hn => hn (Or.inl h1))⟩
  · exact ⟨iff_of_true rfl (Or.inr (Or.inl h2)),
      iff_of_false (by simp) (fun hn => hn (Or.inr (Or.inl h2)))⟩
  · exact ⟨iff_of_true rfl (Or.inr (Or.inr (Or.inl h3))),
      iff_of_false (by simp)
        (fun hn => hn (Or.inr (Or.inr (Or.inl h3))))⟩
  · exact ⟨iff_of_true rfl (Or.inr (Or.inr (Or.inr h4))),
      iff_of_false (by simp)
        (fun hn => hn (Or.inr (Or.inr (Or.inr h4))))⟩
  · have hno : ¬(tmin > tmax ∨ tmean > tmax ∨ tmin > tmean ∨ ra < 0 ∨
        ra > 0.0820 * 24 * 60 * 0.408) :=
      fun hor => hor.elim h1 fun hor2 => hor2.elim h2 fun hor3 => hor3.elim h3 h4
    exact ⟨iff_of_false (fun hc => Except.noConfusion hc) hno, iff_of_true ⟨_, rfl⟩ hno⟩

/-- C1 counterexample: at the validated input `(10, 30, 20, 10)` the
class-method `hargreaves_samani` does not return
`0.0023*(tmean+17.8)*sqrt(tmax-tmin)*(0.408*ra)`: `ra` is not multiplied by
0.408 before entering the product. -/
theorem hargreaves_samani_no_conversion :
    ReferenceEvapotranspiration.hargreaves_samani 10 30 20 10 ≠
      Except.ok (0.0023 * ((20 : ℝ) + 17.8) * Real.sqrt ((30 : ℝ) - 10) * (0.408 * 10)) := by
  unfold ReferenceEvapotranspiration.hargreaves_samani check_greater_than check_between
  simp only [check_bind]
  rw [if_neg (by norm_num), if_neg (by norm_num), if_neg (by norm_num),
    if_neg (by norm_num)]
  intro h
  have h2 : (0.0023 * (((20 : ℚ) : ℝ) + 17.8) * Real.sqrt (((30 : ℚ) : ℝ) - ((10 : ℚ) : ℝ)) *
      ((10 : ℚ) : ℝ)) = 0.0023 * ((20 : ℝ) + 17.8) * Real.sqrt ((30 : ℝ) - 10) * (0.408 * 10) :=
    Except.ok.inj h
  push_cast at h2
  norm_num at h2

/-- C1 (amended): for every input that passes its validation, the
class-method `hargreaves_samani` returns
`0.0023*(tmean+17.8)*sqrt(tmax-tmin)*ra`, with `ra` entering the product
directly — the 0.408 radiation-to-evaporation conversion is not applied
(only the module-level `pet.py` function, which has no validation,
applies it). -/
theorem hargreaves_samani_validated_value (tmin tmax tmean ra : ℚ)
    (h1 : ¬tmin > tmax) (h2 : ¬tmean > tmax) (h3 : ¬tmin > tmean)
    (h4 : ¬(ra < 0 ∨ ra > 0.0820 * 24 * 60 * 0.408)) :
    ReferenceEvapotranspiration.hargreaves_samani tmin tmax tmean ra =
      Except.ok (0.0023 * ((tmean : ℝ) + 17.8) *
        Real.sqrt ((tmax : ℝ) - (tmin : ℝ)) * (ra : ℝ)) := by
  unfold ReferenceEvapotranspiration.hargreaves_samani check_greater_than check_between
  simp only [check_bind]
  rw [if_neg h1, if_neg h2, if_neg h3, if_neg h4]
  rfl

/-- C1 witness: the input `(10, 30, 20, 10)` passes all four checks and the
amended formula evaluates there. -/
theorem hargreaves_samani_validated_value_witness :
    (¬(10 : ℚ) > 30 ∧ ¬(20 : ℚ) > 30 ∧ ¬(10 : ℚ) > 20 ∧
      ¬((10 : ℚ) < 0 ∨ (10 : ℚ) > 0.0820 * 24 * 60 * 0.408)) ∧
    ReferenceEvapotranspiration.hargreaves_samani 10 30 20 10 =
      Except.ok (0.0023 * (((20 : ℚ) : ℝ) + 17.8) *
        Real.sqrt (((30 : ℚ) : ℝ) - ((10 : ℚ) : ℝ)) * ((10 : ℚ) : ℝ)) :=
  ⟨⟨by norm_num, by norm_num, by norm_num, by norm_num⟩,
    hargreaves_samani_validated_value 10 30 20 10
      (by norm_num) (by norm_num) (by norm_num) (by norm_num)⟩

/-- C5 counterexample: on the common input `(10, 30, 20, 10)` both
definitions of `hargreaves_samani` succeed but return different values —
the class method gives `0.0023*37.8*sqrt(20)*10` while the `pet.py`
function gives `0.0023*37.8*sqrt(20)*4.08` — so the two definitions are
not equivalent. -/
theorem hargreaves_samani_definitions_disagree :
    ReferenceEvapotranspiration.hargreaves_samani 10 30 20 10 =
      Except.ok (0.0023 * ((20 : ℝ) + 17.8) * Real.sqrt 20 * 10) ∧
    pet.hargreaves_samani 10 30 20 10 =
      ((0.0023 * ((20 : ℝ) + 17.8) * Real.sqrt 20 * 4.08 : ℝ) : ℂ) ∧
    (0.0023 * ((20 : ℝ) + 17.8) * Real.sqrt 20 * 10 : ℝ) ≠
      0.0023 * ((20 : ℝ) + 17.8) * Real.sqrt 20 * 4.08 := by
  refine ⟨?_, ?_, ?_⟩
  · unfold ReferenceEvapotranspiration.hargreaves_samani check_greater_than check_between
    simp only [check_bind]
    rw [if_neg (by norm_num), if_neg (by norm_num), if_neg (by norm_num),
      if_neg (by norm_num)]
    show Except.ok _ = Except.ok _
    norm_num
  · unfold pet.hargreaves_samani radiation2evaporation pow_half
    rw [if_pos (show (0 : ℝ) ≤ ((30 : ℚ) : ℝ) - ((10 : ℚ) : ℝ) by norm_num)]
    push_cast
    norm_num
  · intro h
    norm_num at h

/-- C5 (amended): the two definitions of `hargreaves_samani` are not
equivalent; instead, whenever the class method succeeds with value `v`, the
module-level `pet.py` function (which never raises) returns the real value
`0.408 * v` — the two differ exactly by the radiation-to-evaporation factor
0.408. -/
theorem hargreaves_samani_pet_vs_class (tmin tmax tmean ra : ℚ) (v : ℝ)
    (h : ReferenceEvapotranspiration.hargreaves_samani tmin tmax tmean ra = Except.ok v) :
    pet.hargreaves_samani tmin tmax tmean ra = ((0.408 * v : ℝ) : ℂ) := by
  unfold ReferenceEvapotranspiration.hargreaves_samani check_greater_than check_between at h
  simp only [check_bind] at h
  split_ifs at h with h1 h2 h3 h4
  have hv : (0.0023 * ((tmean : ℝ) + 17.8) *
      Real.sqrt ((tmax : ℝ) - (tmin : ℝ)) * (ra : ℝ)) = v := Except.ok.inj h
  have hnonneg : (0 : ℝ) ≤ (tmax : ℝ) - (tmin : ℝ) := by
    rw [sub_nonneg, Rat.cast_le]
    exact not_lt.mp h1
  unfold pet.hargreaves_samani radiation2evaporation pow_half
  rw [if_pos hnonneg, ← hv]
  push_cast
  ring_nf
  push_cast
  ring_nf

/-- C5 witness: at `(0, 25, 10, 5)` the class method succeeds, and the
`pet.py` value is 0.408 times the class value. -/
theorem hargreaves_samani_pet_vs_class_witness :
    ReferenceEvapotranspiration.hargreaves_samani 0 25 10 5 =
      Except.ok (0.0023 * (((10 : ℚ) : ℝ) + 17.8) *
        Real.sqrt (((25 : ℚ) : ℝ) - ((0 : ℚ) : ℝ)) * ((5 : ℚ) : ℝ)) ∧
    pet.hargreaves_samani 0 25 10 5 =
      ((0.408 * (0.0023 * (((10 : ℚ) : ℝ) + 17.8) *
        Real.sqrt (((25 : ℚ) : ℝ) - ((0 : ℚ) : ℝ)) * ((5 : ℚ) : ℝ)) : ℝ) : ℂ) := by
  have h : ReferenceEvapotranspiration.hargreaves_samani 0 25 10 5 =
      Except.ok (0.0023 * (((10 : ℚ) : ℝ) + 17.8) *
        Real.sqrt (((25 : ℚ) : ℝ) - ((0 : ℚ) : ℝ)) * ((5 : ℚ) : ℝ)) := by
    unfold ReferenceEvapotranspiration.hargreaves_samani check_greater_than check_between
    simp only [check_bind]
    rw [if_neg (by norm_num), if_neg (by norm_num), if_neg (by norm_num),
      if_neg (by norm_num)]
    rfl
  exact ⟨h, hargreaves_samani_pet_vs_class 0 25 10 5 _ h⟩

/-- C6: for every latitude within ±90° in radians and every solar
declination within ±23.5° in radians, `sunset_hour_angle` succeeds and
returns `acos` of `-tan(lat)*tan(solar_dec)` clamped to `[-1, 1]`, and the
result always lies within `[0, π]` (the clamp makes `acos` safe even when
the unclamped product exceeds 1 in absolute value). -/
theorem sunset_hour_angle_clamped (latitude solar_dec : ℝ)
    (hlat1 : _MINLAT_RADIANS ≤ latitude) (hlat2 : latitude ≤ _MAXLAT_RADIANS)
    (hsd1 : _MINSOLDEC_RADIANS ≤ solar_dec) (hsd2 : solar_dec ≤ _MAXSOLDEC_RADIANS) :
    sunset_hour_angle latitude solar_dec =
      Except.ok (Real.arccos
        (min (max (-Real.tan latitude * Real.tan solar_dec) (-1.0)) 1.0)) ∧
    0 ≤ Real.arccos (min (max (-Real.tan latitude * Real.tan solar_dec) (-1.0)) 1.0) ∧
    Real.arccos (min (max (-Real.tan latitude * Real.tan solar_dec) (-1.0)) 1.0) ≤
      Real.pi := by
  refine ⟨?_, Real.arccos_nonneg _, Real.arccos_le_pi _⟩
  unfold sunset_hour_angle check_latitude_radians check_solar_declination_radians
  simp only [check_bind]
  rw [if_neg (not_not_intro ⟨hlat1, hlat2⟩), if_neg (not_not_intro ⟨hsd1, hsd2⟩)]
  rfl

/-- C6 witness: latitude 0 and solar declination 0 are within bounds; there
the clamped argument is 0 and the angle is `acos 0 ∈ [0, π]`. -/
theorem sunset_hour_angle_clamped_witness :
    (_MINLAT_RADIANS ≤ (0 : ℝ) ∧ (0 : ℝ) ≤ _MAXLAT_RADIANS ∧
      _MINSOLDEC_RADIANS ≤ (0 : ℝ) ∧ (0 : ℝ) ≤ _MAXSOLDEC_RADIANS) ∧
    sunset_hour_angle 0 0 =
      Except.ok (Real.arccos (min (max (-Real.tan 0 * Real.tan 0) (-1.0)) 1.0)) ∧
    0 ≤ Real.arccos (min (max (-Real.tan 0 * Real.tan 0) (-1.0)) 1.0) ∧
    Real.arccos (min (max (-Real.tan 0 * Real.tan 0) (-1.0)) 1.0) ≤ Real.pi := by
  have h1 : _MINLAT_RADIANS ≤ (0 : ℝ) := by
    unfold _MINLAT_RADIANS degrees2radians
    nlinarith [Real.pi_pos]
  have h2 : (0 : ℝ) ≤ _MAXLAT_RADIANS := by
    unfold _MAXLAT_RADIANS degrees2radians
    nlinarith [Real.pi_pos]
  have h3 : _MINSOLDEC_RADIANS ≤ (0 : ℝ) := by
    unfold _MINSOLDEC_RADIANS degrees2radians
    nlinarith [Real.pi_pos]
  have h4 : (0 : ℝ) ≤ _MAXSOLDEC_RADIANS := by
    unfold _MAXSOLDEC_RADIANS degrees2radians
    nlinarith [Real.pi_pos]
  exact ⟨⟨h1, h2, h3, h4⟩, sunset_hour_angle_clamped 0 0 h1 h2 h3 h4⟩

/-- C9: for every `day_of_year` in `1..366`, `solar_declination` succeeds,
and its value `0.409*sin((2*pi/365)*doy - 1.39)` always lies within ±23.5°
in radians (because `0.409 < 23.5*pi/180`), so
`check_solar_declination_radians` accepts it and it can be fed to
`sunset_hour_angle` or `extraterrestrial_radiation` without raising. -/
theorem solar_declination_within_bounds (day_of_year : ℤ)
    (h1 : 1 ≤ day_of_year) (h2 : day_of_year ≤ 366) :
    solar_declination day_of_year =
      Except.ok (0.409 * Real.sin (2.0 * Real.pi / 365.0 * (day_of_year : ℝ) - 1.39)) ∧
    check_solar_declination_radians
      (0.409 * Real.sin (2.0 * Real.pi / 365.0 * (day_of_year : ℝ) - 1.39)) =
      Except.ok () := by
  constructor
  · unfold solar_declination check_julian_day
    simp only [check_bind]
    rw [if_neg (not_not_intro ⟨h1, h2⟩)]
    rfl
  · have hpi := Real.pi_gt_d6
    have hs1 := Real.neg_one_le_sin (2.0 * Real.pi / 365.0 * (day_of_year : ℝ) - 1.39)
    have hs2 := Real.sin_le_one (2.0 * Real.pi / 365.0 * (day_of_year : ℝ) - 1.39)
    unfold check_solar_declination_radians _MINSOLDEC_RADIANS _MAXSOLDEC_RADIANS
      degrees2radians
    rw [if_neg (not_not_intro ⟨by nlinarith, by nlinarith⟩)]

/-- C9 witness: `day_of_year = 100` is a valid Julian day and the resulting
declination passes `check_solar_declination_radians`. -/
theorem solar_declination_within_bounds_witness :
    ((1 : ℤ) ≤ 100 ∧ (100 : ℤ) ≤ 366) ∧
    solar_declination 100 =
      Except.ok (0.409 * Real.sin (2.0 * Real.pi / 365.0 * ((100 : ℤ) : ℝ) - 1.39)) ∧
    check_solar_declination_radians
      (0.409 * Real.sin (2.0 * Real.pi / 365.0 * ((100 : ℤ) : ℝ) - 1.39)) =
      Except.ok () :=
  ⟨⟨by decide, by decide⟩, solar_declination_within_bounds 100 (by decide) (by decide)⟩

/-- C10: the module-level `pet.py` `hargreaves_samani` is total (its
embedding returns a value of ℂ for every input, never an error), and when
`tmax < tmin` the factor `(tmax - tmin) ** 0.5` is the square root of a
negative number: it is purely imaginary and nonzero (not a real number),
and the whole result is `i` times a real expression. -/
theorem pet_hargreaves_complex_when_inverted (tmin tmax tmean ra : ℚ)
    (h : tmax < tmin) :
    (pow_half ((tmax : ℝ) - (tmin : ℝ))).re = 0 ∧
    (pow_half ((tmax : ℝ) - (tmin : ℝ))).im ≠ 0 ∧
    pet.hargreaves_samani tmin tmax tmean ra =
      Complex.I * ((0.0023 * ((tmean : ℝ) + 17.8) *
        Real.sqrt ((tmin : ℝ) - (tmax : ℝ)) *
        ((radiation2evaporation ra : ℚ) : ℝ) : ℝ) : ℂ) := by
  have hlt : (tmax : ℝ) - (tmin : ℝ) < 0 := by
    rw [sub_neg]
    exact_mod_cast h
  have hneg : ¬(0 ≤ (tmax : ℝ) - (tmin : ℝ)) := not_le.mpr hlt
  have hps : pow_half ((tmax : ℝ) - (tmin : ℝ)) =
      Complex.I * ((Real.sqrt ((tmin : ℝ) - (tmax : ℝ)) : ℝ) : ℂ) := by
    unfold pow_half
    rw [if_neg hneg, neg_sub]
  refine ⟨?_, ?_, ?_⟩
  · rw [hps]
    simp
  · rw [hps]
    simp only [Complex.mul_im, Complex.I_re, Complex.I_im, Complex.ofReal_re,
      Complex.ofReal_im, zero_mul, one_mul, zero_add, mul_zero]
    exact ne_of_gt (Real.sqrt_pos.mpr (by linarith))
  · unfold pet.hargreaves_samani
    rw [hps]
    push_cast
    ring_nf
    push_cast
    ring_nf

/-- C10 witness: at `(tmin, tmax, tmean, ra) = (30, 10, 20, 5)` we have
`tmax < tmin`; the square-root factor is purely imaginary and nonzero and
no error is raised. -/
theorem pet_hargreaves_complex_when_inverted_witness :
    ((10 : ℚ) < 30) ∧
    ((pow_half (((10 : ℚ) : ℝ) - ((30 : ℚ) : ℝ))).re = 0 ∧
      (pow_half (((10 : ℚ) : ℝ) - ((30 : ℚ) : ℝ))).im ≠ 0 ∧
      pet.hargreaves_samani 30 10 20 5 =
        Complex.I * ((0.0023 * (((20 : ℚ) : ℝ) + 17.8) *
          Real.sqrt (((30 : ℚ) : ℝ) - ((10 : ℚ) : ℝ)) *
          ((radiation2evaporation 5 : ℚ) : ℝ) : ℝ) : ℂ)) :=
  ⟨by norm_num, pet_hargreaves_complex_when_inverted 30 10 20 5 (by norm_num)⟩
